import Mathlib

/-!
Shallow embedding of `scripts/generate_device_config.py` (sphere-agent-config
generator) and proofs about its configuration-synthesis, validation and
batch-expansion pipeline.

The embedding mirrors the script function by function:
  * `generate_single_config` — the pure config synthesizer;
  * `validate_config` — required-field and credential-prefix validation;
  * `unitIdx` / `unitName` / `unitFilename` / `runUnit` / `runBatch` — the
    per-unit derivations and the batch loop of `main`;
  * `pad3` — the Python format `{n:03d}` (zero-padded decimal).

Python truthiness (`if s:` on a possibly-`None` string, `a or b`) is modelled
by `truthyOpt` / `orStr`: both `None` and the empty string are falsy.
Optional JSON fields of the environment document are modelled as `Option`
(absent = `none`); the three fields the script indexes unconditionally
(`config_version`, `server_url`, `enrollment_api_key`) are plain values.
A Python `TypeError` raised by formatting `None` with `{:03d}` is modelled
explicitly (`NameResult.typeErr`, `StepResult.typeErr`, `Outcome.typeError`).
-/

/-- JSON-like values as they occur in a synthesized device configuration
record; `DeviceConfig.get` exposes the record as a string-keyed mapping the
way the Python dict is probed by `validate_config`. -/
inductive JVal where
  | null : JVal
  | str : String → JVal
  | int : Int → JVal
  | boolMap : List (String × Bool) → JVal
  | strMap : List (String × String) → JVal
deriving DecidableEq

/-- Environment document (one per deployment tier). The fields read with
`env_config[...]` in the script are mandatory; the ones read with
`env_config.get(...)` are `Option` (absent = `none`). -/
structure EnvConfig where
  config_version : Int
  server_url : String
  ws_path : Option String
  enrollment_api_key : String
  location : Option String
  environment : Option String
  config_poll_interval_seconds : Option Int
  features : Option (List (String × Bool))
deriving DecidableEq

/-- The synthesized device configuration record, with exactly the twelve keys
built by `generate_single_config`. -/
structure DeviceConfig where
  config_version : Int
  server_url : String
  ws_path : String
  enrollment_api_key : String
  device_id : Option String
  workstation_id : Option String
  instance_index : Option Int
  location : Option String
  environment : String
  config_poll_interval_seconds : Int
  features : List (String × Bool)
  meta : List (String × String)
deriving DecidableEq

/-- Python truthiness of an optional string: `None` and `""` are falsy. -/
def truthyOpt : Option String → Bool
  | none => false
  | some s => if s = "" then false else true

/-- Python `a or b` on optional strings: the right operand is returned
whenever the left one is falsy (`None` or `""`). -/
def orStr : Option String → Option String → Option String
  | some s, b => if s = "" then b else some s
  | none, b => b

/-- The fixed four-flag default feature set of `generate_single_config`. -/
def defaultFeatures : List (String × Bool) :=
  [("telemetry_enabled", true), ("streaming_enabled", true),
   ("ota_enabled", true), ("auto_register", true)]

/-- `generate_single_config(env_config, workstation_id, instance_index,
location, ldplayer_name)`: merge the environment document with the
device-identity parameters into one record. -/
def generate_single_config (env_config : EnvConfig) (workstation_id : Option String)
    (instance_index : Option Int) (location : Option String)
    (ldplayer_name : Option String) : DeviceConfig :=
  let meta0 : List (String × String) :=
    match ldplayer_name with
    | some n => if n = "" then [] else [("ldplayer_name", n)]
    | none => []
  let meta1 : List (String × String) :=
    if truthyOpt workstation_id && instance_index.isSome then
      meta0 ++ [("clone_source", "auto-generated")]
    else meta0
  { config_version := env_config.config_version
    server_url := env_config.server_url
    ws_path := env_config.ws_path.getD "/ws/android"
    enrollment_api_key := env_config.enrollment_api_key
    device_id := none
    workstation_id := workstation_id
    instance_index := instance_index
    location := orStr location env_config.location
    environment := env_config.environment.getD "production"
    config_poll_interval_seconds := env_config.config_poll_interval_seconds.getD 86400
    features := env_config.features.getD defaultFeatures
    meta := meta1 }

/-- Dict-style lookup on a synthesized record (`field in config` /
`config[field]`): returns `none` for a key the record does not have, and the
value of the record (with `none` sub-values rendered as JSON `null`) otherwise. -/
def DeviceConfig.get (c : DeviceConfig) (field : String) : Option JVal :=
  if field = "config_version" then some (JVal.int c.config_version)
  else if field = "server_url" then some (JVal.str c.server_url)
  else if field = "ws_path" then some (JVal.str c.ws_path)
  else if field = "enrollment_api_key" then some (JVal.str c.enrollment_api_key)
  else if field = "device_id" then some (match c.device_id with | none => JVal.null | some s => JVal.str s)
  else if field = "workstation_id" then some (match c.workstation_id with | none => JVal.null | some s => JVal.str s)
  else if field = "instance_index" then some (match c.instance_index with | none => JVal.null | some n => JVal.int n)
  else if field = "location" then some (match c.location with | none => JVal.null | some s => JVal.str s)
  else if field = "environment" then some (JVal.str c.environment)
  else if field = "config_poll_interval_seconds" then some (JVal.int c.config_poll_interval_seconds)
  else if field = "features" then some (JVal.boolMap c.features)
  else if field = "meta" then some (JVal.strMap c.meta)
  else none

/-- Schema document; `required` models `schema.get("required", [])`. -/
structure Schema where
  required : List String
deriving DecidableEq

/-- The error string emitted for a missing or null required field. -/
def requiredFieldError (field : String) : String :=
  "Обязательное поле \x27" ++ field ++ "\x27 отсутствует или null"

/-- Python `s.startswith(p)`: the characters of `p` are a prefix of those of `s`. -/
def pyStartsWith (s p : String) : Bool := p.data.isPrefixOf s.data

/-- Python `s[:n]`: the first `n` characters of `s`. -/
def pyTake (s : String) (n : Nat) : String := String.mk (s.data.take n)

/-- The error string emitted for an enrollment key without the
`sphr_` prefix, with a 10-character preview of the offending value. -/
def apiKeyError (key : String) : String :=
  "enrollment_api_key должен начинаться с \x27sphr_\x27, получено: " ++ pyTake key 10 ++ "..."

/-- Whether a dict lookup result is absent or JSON `null`. -/
def isNullVal : Option JVal → Bool
  | none => true
  | some JVal.null => true
  | some _ => false

/-- `field not in config or config[field] is None`. -/
def fieldMissingOrNull (config : DeviceConfig) (field : String) : Bool :=
  isNullVal (config.get field)

/-- `key and not key.startswith("sphr_")`. -/
def badApiKey (key : String) : Bool :=
  if key = "" then false
  else if pyStartsWith key "sphr_" then false
  else true

/-- `validate_config(config, schema)`: one error per missing/null required
field in schema-list order, then the credential-format check. -/
def validate_config (config : DeviceConfig) (schema : Schema) : List String :=
  let errors :=
    schema.required.filterMap (fun field =>
      if fieldMissingOrNull config field then some (requiredFieldError field) else none)
  if badApiKey config.enrollment_api_key then
    errors ++ [apiKeyError config.enrollment_api_key]
  else errors

/-- The parsed command-line arguments of `main` that feed the batch loop. -/
structure Args where
  workstation_id : Option String
  instance_index : Option Int
  location : Option String
  ldplayer_name : Option String
  count : Nat
  start_index : Int
  output_file : Option String
deriving DecidableEq

/-- `idx = args.start_index + i if args.workstation_id else args.instance_index`. -/
def unitIdx (args : Args) (i : Nat) : Option Int :=
  if truthyOpt args.workstation_id then some (args.start_index + (i : Int))
  else args.instance_index

/-- Little-endian base-10 digits via structural recursion on a fuel bound. -/
def toDigitsRevAux : Nat → Nat → List Nat
  | 0, _ => []
  | fuel + 1, n => if n = 0 then [] else n % 10 :: toDigitsRevAux fuel (n / 10)

/-- Little-endian base-10 digits of `n` (empty for `0`). -/
def toDigitsRev (n : Nat) : List Nat := toDigitsRevAux n n

/-- The character of a single decimal digit. -/
def digitChar (d : Nat) : Char := Char.ofNat (48 + d)

/-- Plain decimal rendering of a natural number. -/
def natDecStr (n : Nat) : String :=
  if n = 0 then "0" else String.mk ((toDigitsRev n).reverse.map digitChar)

/-- The Python format `f"{n:03d}"`: decimal rendering zero-padded to total width 3,
with the minus sign of a negative number placed before the padding. -/
def pad3 (n : Int) : String :=
  if n < 0 then
    if 3 ≤ 1 + (natDecStr n.natAbs).length then "-" ++ natDecStr n.natAbs
    else "-" ++ String.mk (List.replicate (3 - (1 + (natDecStr n.natAbs).length)) '0')
      ++ natDecStr n.natAbs
  else
    if 3 ≤ (natDecStr n.natAbs).length then natDecStr n.natAbs
    else String.mk (List.replicate (3 - (natDecStr n.natAbs).length) '0') ++ natDecStr n.natAbs

/-- Big-endian decimal parsing of a digit-character list (proof tool used to
invert `pad3`). -/
def parseDigits (l : List Char) : Nat :=
  l.foldl (fun acc c => 10 * acc + (c.toNat - 48)) 0

/-- Result of the per-unit display-name derivation: formatting a `None`
index with `{:03d}` raises `TypeError`. -/
inductive NameResult where
  | typeErr : NameResult
  | ok : Option String → NameResult
deriving DecidableEq

/-- `name = args.ldplayer_name; if args.count > 1: name = name or f"Farm-{idx:03d}"`.
The f-string is only evaluated when `name` is falsy, and raises `TypeError`
when `idx` is `None`. -/
def unitName (args : Args) (idx : Option Int) : NameResult :=
  if args.count > 1 then
    if truthyOpt args.ldplayer_name then NameResult.ok args.ldplayer_name
    else
      match idx with
      | some n => NameResult.ok (some ("Farm-" ++ pad3 n))
      | none => NameResult.typeErr
  else NameResult.ok args.ldplayer_name

/-- The per-unit output file name: the explicit override (when truthy) or the
fixed default for a single-unit run, the default stem suffixed with the
zero-padded index otherwise; `none` models the `TypeError` of formatting a
`None` index. -/
def unitFilename (args : Args) (idx : Option Int) : Option String :=
  if args.count = 1 then
    some (match args.output_file with
          | some s => if s = "" then "sphere-agent-config.json" else s
          | none => "sphere-agent-config.json")
  else
    match idx with
    | some n => some ("sphere-agent-config-" ++ pad3 n ++ ".json")
    | none => none

/-- Result of one iteration of the batch loop for one unit. -/
inductive StepResult where
  | typeErr : StepResult
  | invalid : List String → StepResult
  | ok : String × DeviceConfig → StepResult
deriving DecidableEq

/-- One iteration of the loop in `main` for unit `i`: derive the index and
display name, synthesize, validate, and on success resolve the file name. -/
def runUnit (env : EnvConfig) (schema : Schema) (args : Args) (i : Nat) : StepResult :=
  match unitName args (unitIdx args i) with
  | NameResult.typeErr => StepResult.typeErr
  | NameResult.ok name =>
    if validate_config
        (generate_single_config env args.workstation_id (unitIdx args i) args.location name)
        schema = [] then
      match unitFilename args (unitIdx args i) with
      | none => StepResult.typeErr
      | some fn => StepResult.ok
          (fn, generate_single_config env args.workstation_id (unitIdx args i) args.location name)
    else StepResult.invalid
      (validate_config
        (generate_single_config env args.workstation_id (unitIdx args i) args.location name)
        schema)

/-- Outcome of a whole batch run: every written file (name and content, in
write order) plus how the process ended. `validationFailure` carries the
files already on disk, the loop offset of the failing unit and its reported
errors; `typeError` is an uncaught exception while formatting a `None`
index. -/
inductive Outcome where
  | success : List (String × DeviceConfig) → Outcome
  | validationFailure : List (String × DeviceConfig) → Nat → List String → Outcome
  | typeError : List (String × DeviceConfig) → Outcome
deriving DecidableEq

/-- The batch loop of `main`, starting at unit `i` with `r` units left and
`acc` the files already written. -/
def runBatchAux (env : EnvConfig) (schema : Schema) (args : Args) :
    Nat → Nat → List (String × DeviceConfig) → Outcome
  | _, 0, acc => Outcome.success acc
  | i, r + 1, acc =>
    match runUnit env schema args i with
    | StepResult.typeErr => Outcome.typeError acc
    | StepResult.invalid errors => Outcome.validationFailure acc i errors
    | StepResult.ok f => runBatchAux env schema args (i + 1) r (acc ++ [f])

/-- The whole batch run of `main` after loading: `for i in range(args.count)`. -/
def runBatch (env : EnvConfig) (schema : Schema) (args : Args) : Outcome :=
  runBatchAux env schema args 0 args.count []

/-- Process exit status of an outcome (`sys.exit(1)` on validation failure,
exit code 1 for an uncaught `TypeError`, 0 on success). -/
def exitCode : Outcome → Nat
  | Outcome.success _ => 0
  | Outcome.validationFailure _ _ _ => 1
  | Outcome.typeError _ => 1

/-- The file written for unit `i`, when that unit succeeds. -/
def okFile (env : EnvConfig) (schema : Schema) (args : Args) (i : Nat) :
    Option (String × DeviceConfig) :=
  match runUnit env schema args i with
  | StepResult.ok f => some f
  | _ => none

/-- The error list the validator produces for unit `i`, when the unit reaches
validation (`none` when display-name formatting raises `TypeError` first). -/
def unitErrors (env : EnvConfig) (schema : Schema) (args : Args) (i : Nat) :
    Option (List String) :=
  match unitName args (unitIdx args i) with
  | NameResult.typeErr => none
  | NameResult.ok name =>
    some (validate_config
      (generate_single_config env args.workstation_id (unitIdx args i) args.location name) schema)

/-! ### General lemmas about the validator -/

lemma filterMap_required_eq (config : DeviceConfig) (l : List String) :
    l.filterMap (fun field =>
        if fieldMissingOrNull config field then some (requiredFieldError field) else none)
      = (l.filter (fun f => fieldMissingOrNull config f)).map requiredFieldError := by
  induction l with
  | nil => rfl
  | cons a t ih =>
    by_cases h : fieldMissingOrNull config a <;> simp [h, ih]

lemma validate_config_eq (config : DeviceConfig) (schema : Schema) :
    validate_config config schema
      = (schema.required.filter (fun f => fieldMissingOrNull config f)).map requiredFieldError
        ++ (if badApiKey config.enrollment_api_key then
              [apiKeyError config.enrollment_api_key] else []) := by
  unfold validate_config
  rw [filterMap_required_eq]
  by_cases h : badApiKey config.enrollment_api_key <;> simp [h]

lemma requiredFieldError_head (f : String) :
    (requiredFieldError f).data.head? = some 'О' := rfl

lemma apiKeyError_head (k : String) :
    (apiKeyError k).data.head? = some 'e' := rfl

lemma requiredFieldError_ne_apiKeyError (f k : String) :
    requiredFieldError f ≠ apiKeyError k := by
  intro h
  have h1 := requiredFieldError_head f
  rw [h, apiKeyError_head] at h1
  exact absurd h1 (by decide)

lemma apiKeyError_not_in_required_errors (l : List String) (k : String) :
    apiKeyError k ∉ l.map requiredFieldError := by
  intro h
  obtain ⟨f, _, hf⟩ := List.mem_map.mp h
  exact requiredFieldError_ne_apiKeyError f k hf

/-- C2: `validate_config` emits one error naming the field for each
schema-required field that is absent or null in the record, in schema-list
order, followed by at most one credential-format error; the result is empty
exactly when every required field is present and non-null and the credential
check passes. -/
theorem c2_validator_structure (config : DeviceConfig) (schema : Schema) :
    validate_config config schema
        = (schema.required.filter (fun f => fieldMissingOrNull config f)).map requiredFieldError
          ++ (if badApiKey config.enrollment_api_key then
                [apiKeyError config.enrollment_api_key] else [])
      ∧ (∀ f : String, ∃ pre post : String, requiredFieldError f = pre ++ f ++ post)
      ∧ (validate_config config schema = []
          ↔ (∀ f ∈ schema.required, fieldMissingOrNull config f = false)
            ∧ badApiKey config.enrollment_api_key = false) := by
  refine ⟨validate_config_eq config schema,
    fun f => ⟨"Обязательное поле \x27", "\x27 отсутствует или null", rfl⟩, ?_⟩
  rw [validate_config_eq]
  by_cases hb : badApiKey config.enrollment_api_key
  · constructor
    · intro h
      exact absurd h (by simp [hb])
    · rintro ⟨-, h2⟩
      rw [hb] at h2
      cases h2
  · constructor
    · intro h
      have hfil : schema.required.filter (fun f => fieldMissingOrNull config f) = [] := by
        simp only [hb] at h
        simpa using h
      refine ⟨fun f hf => ?_, by simpa using hb⟩
      by_contra hc
      have hmem : f ∈ schema.required.filter (fun f => fieldMissingOrNull config f) :=
        List.mem_filter.mpr ⟨hf, by simpa using hc⟩
      simp [hfil] at hmem
    · rintro ⟨h1, -⟩
      have hfil : schema.required.filter (fun f => fieldMissingOrNull config f) = [] := by
        rw [List.filter_eq_nil_iff]
        intro f hf
        simp [h1 f hf]
      simp [hfil, hb]

/-- Closed instance of `c2_validator_structure` at concrete inputs. -/
theorem c2_validator_structure_witness :
    validate_config
        (generate_single_config ⟨1, "https://api.example", none, "sphr_live", none, none, none, none⟩
          none none none none)
        ⟨["server_url", "device_id"]⟩
      = ((⟨["server_url", "device_id"]⟩ : Schema).required.filter
            (fun f => fieldMissingOrNull
              (generate_single_config ⟨1, "https://api.example", none, "sphr_live", none, none, none, none⟩
                none none none none) f)).map requiredFieldError
        ++ (if badApiKey
              (generate_single_config ⟨1, "https://api.example", none, "sphr_live", none, none, none, none⟩
                none none none none).enrollment_api_key then
              [apiKeyError
                (generate_single_config ⟨1, "https://api.example", none, "sphr_live", none, none, none, none⟩
                  none none none none).enrollment_api_key] else []) :=
  (c2_validator_structure
    (generate_single_config ⟨1, "https://api.example", none, "sphr_live", none, none, none, none⟩
      none none none none)
    ⟨["server_url", "device_id"]⟩).1

/-- C3: whatever the schema contains, a non-empty enrollment credential
without the `sphr_` prefix yields exactly one format error, whose text starts
with the field name and embeds the first 10 characters of the value; a
credential with the prefix never triggers this error. -/
theorem c3_api_key_check (config : DeviceConfig) (schema : Schema) :
    (config.enrollment_api_key ≠ "" →
      pyStartsWith config.enrollment_api_key "sphr_" = false →
        (validate_config config schema).count (apiKeyError config.enrollment_api_key) = 1
        ∧ (∃ t : List Char, (apiKeyError config.enrollment_api_key).data
              = ("enrollment_api_key" : String).data ++ t)
        ∧ (∃ pre post : String, apiKeyError config.enrollment_api_key
              = pre ++ pyTake config.enrollment_api_key 10 ++ post))
    ∧ (pyStartsWith config.enrollment_api_key "sphr_" = true →
        ∀ k : String, apiKeyError k ∉ validate_config config schema) := by
  constructor
  · intro hne hpre
    have hb : badApiKey config.enrollment_api_key = true := by
      unfold badApiKey
      rw [if_neg hne, hpre]
      rfl
    refine ⟨?_, ?_, ?_⟩
    · rw [validate_config_eq, hb, if_pos rfl, List.count_append]
      have h0 : ((schema.required.filter (fun f => fieldMissingOrNull config f)).map
          requiredFieldError).count (apiKeyError config.enrollment_api_key) = 0 :=
        List.count_eq_zero.mpr (apiKeyError_not_in_required_errors _ _)
      rw [h0]
      simp
    · exact ⟨(" должен начинаться с \x27sphr_\x27, получено: "
          ++ pyTake config.enrollment_api_key 10 ++ "...").data, by
        show (apiKeyError config.enrollment_api_key).data = _
        rw [apiKeyError]
        rfl⟩
    · exact ⟨"enrollment_api_key должен начинаться с \x27sphr_\x27, получено: ", "...", rfl⟩
  · intro hpre k hmem
    have hb : badApiKey config.enrollment_api_key = false := by
      unfold badApiKey
      by_cases he : config.enrollment_api_key = ""
      · rw [if_pos he]
      · rw [if_neg he, hpre]
        rfl
    rw [validate_config_eq, hb] at hmem
    simp only [Bool.false_eq_true, if_false, List.append_nil] at hmem
    exact apiKeyError_not_in_required_errors _ k hmem

/-- Closed instance of `c3_api_key_check`: the credential `wrong-key-value`
yields exactly one format error carrying its 10-character preview. -/
theorem c3_api_key_check_witness :
    ("wrong-key-value" : String) ≠ ""
    ∧ pyStartsWith "wrong-key-value" "sphr_" = false
    ∧ (validate_config
          (generate_single_config ⟨1, "u", none, "wrong-key-value", none, none, none, none⟩
            none none none none) ⟨[]⟩).count (apiKeyError "wrong-key-value") = 1 := by
  refine ⟨by decide, by decide, ?_⟩
  exact ((c3_api_key_check
      (generate_single_config ⟨1, "u", none, "wrong-key-value", none, none, none, none⟩
        none none none none) ⟨[]⟩).1 (by decide) (by decide)).1

/-- C1 counterexample: with an explicitly supplied (but empty) device-level
location argument and an environment default location present, the
synthesized record carries the environment default, not the supplied
argument — `location or env_config.get("location")` treats the empty string
as absent. -/
theorem c1_location_counterexample :
    (generate_single_config
        ⟨1, "https://u", none, "sphr_k", some "fra-dc-2", none, none, none⟩
        none none (some "") none).location = some "fra-dc-2"
    ∧ some "fra-dc-2" ≠ some ("" : String) := by decide

/-- C1 (amended): version, server URL and enrollment credential are copied
verbatim; websocket path, environment name, polling interval and feature
flags take their documented defaults exactly when the environment document
omits them; a non-empty explicit location argument wins, while an absent or
empty one falls back to the default location of the environment document (which
may itself be unset). -/
theorem c1_synthesis_defaults (env : EnvConfig) (ws : Option String) (idx : Option Int)
    (loc nm : Option String) :
    (generate_single_config env ws idx loc nm).config_version = env.config_version
    ∧ (generate_single_config env ws idx loc nm).server_url = env.server_url
    ∧ (generate_single_config env ws idx loc nm).enrollment_api_key = env.enrollment_api_key
    ∧ (env.ws_path = none → (generate_single_config env ws idx loc nm).ws_path = "/ws/android")
    ∧ (∀ p, env.ws_path = some p → (generate_single_config env ws idx loc nm).ws_path = p)
    ∧ (env.environment = none →
        (generate_single_config env ws idx loc nm).environment = "production")
    ∧ (∀ e, env.environment = some e → (generate_single_config env ws idx loc nm).environment = e)
    ∧ (env.config_poll_interval_seconds = none →
        (generate_single_config env ws idx loc nm).config_poll_interval_seconds = 86400)
    ∧ (∀ v, env.config_poll_interval_seconds = some v →
        (generate_single_config env ws idx loc nm).config_poll_interval_seconds = v)
    ∧ (env.features = none → (generate_single_config env ws idx loc nm).features = defaultFeatures)
    ∧ (∀ fs, env.features = some fs → (generate_single_config env ws idx loc nm).features = fs)
    ∧ (∀ s, loc = some s → s ≠ "" → (generate_single_config env ws idx loc nm).location = some s)
    ∧ ((loc = none ∨ loc = some "") →
        (generate_single_config env ws idx loc nm).location = env.location) := by
  refine ⟨rfl, rfl, rfl, ?_, ?_, ?_, ?_, ?_, ?_, ?_, ?_, ?_, ?_⟩
  · intro h; simp [generate_single_config, h]
  · intro p h; simp [generate_single_config, h]
  · intro h; simp [generate_single_config, h]
  · intro e h; simp [generate_single_config, h]
  · intro h; simp [generate_single_config, h]
  · intro v h; simp [generate_single_config, h]
  · intro h; simp [generate_single_config, h]
  · intro fs h; simp [generate_single_config, h]
  · intro s hs hne; simp [generate_single_config, orStr, hs, hne]
  · rintro (h | h) <;> simp [generate_single_config, orStr, h]

/-- Closed instance of `c1_synthesis_defaults` on an environment document
omitting every optional field, with a non-empty location argument. -/
theorem c1_synthesis_defaults_witness :
    (generate_single_config ⟨3, "https://srv", none, "sphr_w", none, none, none, none⟩
        none none (some "msk-office-1") none).ws_path = "/ws/android"
    ∧ (generate_single_config ⟨3, "https://srv", none, "sphr_w", none, none, none, none⟩
        none none (some "msk-office-1") none).environment = "production"
    ∧ (generate_single_config ⟨3, "https://srv", none, "sphr_w", none, none, none, none⟩
        none none (some "msk-office-1") none).config_poll_interval_seconds = 86400
    ∧ (generate_single_config ⟨3, "https://srv", none, "sphr_w", none, none, none, none⟩
        none none (some "msk-office-1") none).features = defaultFeatures
    ∧ (generate_single_config ⟨3, "https://srv", none, "sphr_w", none, none, none, none⟩
        none none (some "msk-office-1") none).location = some "msk-office-1" := by
  obtain ⟨-, -, -, h4, -, h6, -, h8, -, h10, -, h12, -⟩ :=
    c1_synthesis_defaults ⟨3, "https://srv", none, "sphr_w", none, none, none, none⟩
      none none (some "msk-office-1") none
  exact ⟨h4 rfl, h6 rfl, h8 rfl, h10 rfl, h12 "msk-office-1" rfl (by decide)⟩

/-- C4 counterexample: a supplied-but-empty workstation identifier is falsy
in `args.start_index + i if args.workstation_id else args.instance_index`, so
unit 0 gets the explicit instance index 9 instead of startIndex + 0 = 5. -/
theorem c4_index_counterexample :
    (⟨some "", some 9, none, none, 3, 5, none⟩ : Args).workstation_id.isSome = true
    ∧ unitIdx ⟨some "", some 9, none, none, 3, 5, none⟩ 0 = some 9
    ∧ unitIdx ⟨some "", some 9, none, none, 3, 5, none⟩ 0 ≠ some (5 + (0 : Int)) := by decide

/-- C4 (amended): with a non-empty workstation identifier the unit at loop
offset `i` receives instance index `startIndex + i`; with an absent or empty
workstation identifier every unit receives the explicit instance-index
parameter unchanged. -/
theorem c4_index_derivation (args : Args) (i : Nat) :
    (truthyOpt args.workstation_id = true →
        unitIdx args i = some (args.start_index + (i : Int)))
    ∧ (truthyOpt args.workstation_id = false → unitIdx args i = args.instance_index) := by
  constructor
  · intro h; simp [unitIdx, h]
  · intro h; simp [unitIdx, h]

/-- Closed instance of `c4_index_derivation`: count=3, start-index=5 with a
workstation id gives indices 5, 6, 7; without one, index 9 is repeated. -/
theorem c4_index_derivation_witness :
    unitIdx ⟨some "ws-PC-FARM-01", none, none, none, 3, 5, none⟩ 0 = some 5
    ∧ unitIdx ⟨some "ws-PC-FARM-01", none, none, none, 3, 5, none⟩ 1 = some 6
    ∧ unitIdx ⟨some "ws-PC-FARM-01", none, none, none, 3, 5, none⟩ 2 = some 7
    ∧ unitIdx ⟨none, some 9, none, none, 3, 0, none⟩ 0 = some 9
    ∧ unitIdx ⟨none, some 9, none, none, 3, 0, none⟩ 2 = some 9 := by
  refine ⟨?_, ?_, ?_, ?_, ?_⟩
  · rw [(c4_index_derivation ⟨some "ws-PC-FARM-01", none, none, none, 3, 5, none⟩ 0).1 (by decide)]
    decide
  · rw [(c4_index_derivation ⟨some "ws-PC-FARM-01", none, none, none, 3, 5, none⟩ 1).1 (by decide)]
    decide
  · rw [(c4_index_derivation ⟨some "ws-PC-FARM-01", none, none, none, 3, 5, none⟩ 2).1 (by decide)]
    decide
  · exact (c4_index_derivation ⟨none, some 9, none, none, 3, 0, none⟩ 0).2 (by decide)
  · exact (c4_index_derivation ⟨none, some 9, none, none, 3, 0, none⟩ 2).2 (by decide)

/-- C8: the synthesizer is deterministic and pure — identical inputs give a
field-for-field identical record — and the device identifier of every
synthesized record is unset. -/
theorem c8_deterministic_pure (e1 e2 : EnvConfig) (w1 w2 : Option String)
    (i1 i2 : Option Int) (l1 l2 n1 n2 : Option String)
    (he : e1 = e2) (hw : w1 = w2) (hi : i1 = i2) (hl : l1 = l2) (hn : n1 = n2) :
    generate_single_config e1 w1 i1 l1 n1 = generate_single_config e2 w2 i2 l2 n2
    ∧ (generate_single_config e1 w1 i1 l1 n1).device_id = none := by
  subst he; subst hw; subst hi; subst hl; subst hn
  exact ⟨rfl, rfl⟩

/-- Closed instance of `c8_deterministic_pure` at a concrete input. -/
theorem c8_deterministic_pure_witness :
    generate_single_config ⟨2, "https://s", some "/ws/a", "sphr_z", some "loc", some "staging", some 60, none⟩
        (some "ws-1") (some 4) (some "loc2") (some "LD-4")
      = generate_single_config ⟨2, "https://s", some "/ws/a", "sphr_z", some "loc", some "staging", some 60, none⟩
        (some "ws-1") (some 4) (some "loc2") (some "LD-4")
    ∧ (generate_single_config ⟨2, "https://s", some "/ws/a", "sphr_z", some "loc", some "staging", some 60, none⟩
        (some "ws-1") (some 4) (some "loc2") (some "LD-4")).device_id = none :=
  c8_deterministic_pure
    ⟨2, "https://s", some "/ws/a", "sphr_z", some "loc", some "staging", some 60, none⟩
    ⟨2, "https://s", some "/ws/a", "sphr_z", some "loc", some "staging", some 60, none⟩
    (some "ws-1") (some "ws-1") (some 4) (some 4) (some "loc2") (some "loc2")
    (some "LD-4") (some "LD-4") rfl rfl rfl rfl rfl

lemma farm_name_ne_empty (s : String) : ("Farm-" ++ s) ≠ "" := by
  intro h
  have h2 : ("Farm-" ++ s).data = ("" : String).data := by rw [h]
  rw [String.data_append] at h2
  simp at h2

/-- C7: with count > 1 and no explicit display name, the unit whose derived
instance index is `n` gets the synthesized display name `Farm-` followed by
`n` zero-padded to 3 digits, and that name is stored in the metadata of the record
under `ldplayer_name`. -/
theorem c7_farm_display_name (env : EnvConfig) (args : Args) (i : Nat) (n : Int)
    (hc : args.count > 1) (hn : args.ldplayer_name = none) (hi : unitIdx args i = some n) :
    unitName args (unitIdx args i) = NameResult.ok (some ("Farm-" ++ pad3 n))
    ∧ ((generate_single_config env args.workstation_id (unitIdx args i) args.location
          (some ("Farm-" ++ pad3 n))).meta).lookup "ldplayer_name"
        = some ("Farm-" ++ pad3 n) := by
  constructor
  · rw [hi]
    simp [unitName, hc, hn, truthyOpt]
  · have hne : ¬ ("Farm-" ++ pad3 n) = "" := farm_name_ne_empty (pad3 n)
    simp only [generate_single_config, hne, if_neg]
    by_cases hm : truthyOpt args.workstation_id && (unitIdx args i).isSome
    · simp [hm, List.lookup]
    · simp [hm, List.lookup]

/-- Closed instance of `c7_farm_display_name`: count=2, no explicit display
name, workstation mode starting at 0 → units 0 and 1 get `Farm-000` and
`Farm-001`. -/
theorem c7_farm_display_name_witness :
    unitName ⟨some "ws-1", none, none, none, 2, 0, none⟩
        (unitIdx ⟨some "ws-1", none, none, none, 2, 0, none⟩ 0)
      = NameResult.ok (some "Farm-000")
    ∧ unitName ⟨some "ws-1", none, none, none, 2, 0, none⟩
        (unitIdx ⟨some "ws-1", none, none, none, 2, 0, none⟩ 1)
      = NameResult.ok (some "Farm-001") := by
  constructor
  · rw [(c7_farm_display_name ⟨1, "u", none, "sphr_k", none, none, none, none⟩
      ⟨some "ws-1", none, none, none, 2, 0, none⟩ 0 0 (by decide) rfl (by decide)).1]
    decide
  · rw [(c7_farm_display_name ⟨1, "u", none, "sphr_k", none, none, none, none⟩
      ⟨some "ws-1", none, none, none, 2, 0, none⟩ 1 1 (by decide) rfl (by decide)).1]
    decide

/-! ### Decimal rendering: `pad3` is injective -/

lemma toDigitsRevAux_eq (fuel : Nat) : ∀ n : Nat, n ≤ fuel → toDigitsRevAux fuel n = Nat.digits 10 n := by
  induction fuel with
  | zero =>
    intro n h
    have h0 : n = 0 := Nat.le_zero.mp h
    subst h0
    simp [toDigitsRevAux]
  | succ fu ih =>
    intro n h
    by_cases h0 : n = 0
    · subst h0; simp [toDigitsRevAux]
    · have hpos : 0 < n := Nat.pos_of_ne_zero h0
      have hlt : n / 10 < n := Nat.div_lt_self hpos (by norm_num)
      simp only [toDigitsRevAux, if_neg h0]
      rw [ih (n / 10) (by omega)]
      rw [← Nat.digits_def' (by norm_num : (1 : Nat) < 10) hpos]

lemma toDigitsRev_eq (n : Nat) : toDigitsRev n = Nat.digits 10 n :=
  toDigitsRevAux_eq n n le_rfl

lemma parseDigits_append_singleton (l : List Char) (c : Char) :
    parseDigits (l ++ [c]) = 10 * parseDigits l + (c.toNat - 48) := by
  unfold parseDigits
  rw [List.foldl_append]
  rfl

lemma parseDigits_rev_map (L : List Nat) (h : ∀ d ∈ L, d < 10) :
    parseDigits (L.reverse.map digitChar) = Nat.ofDigits 10 L := by
  induction L with
  | nil => rfl
  | cons d T ih =>
    rw [List.reverse_cons, List.map_append, List.map_cons, List.map_nil,
      parseDigits_append_singleton, ih (fun x hx => h x (List.mem_cons_of_mem d hx))]
    have hd : d < 10 := h d (List.mem_cons_self d T)
    have hch : ∀ e, e < 10 → (digitChar e).toNat - 48 = e := by decide
    rw [hch d hd, Nat.ofDigits_cons]
    omega

lemma parseDigits_replicate_zero (k : Nat) (l : List Char) :
    parseDigits (List.replicate k '0' ++ l) = parseDigits l := by
  induction k with
  | zero => rfl
  | succ m ih =>
    rw [List.replicate_succ, List.cons_append]
    have hstep : parseDigits ('0' :: (List.replicate m '0' ++ l))
        = parseDigits (List.replicate m '0' ++ l) := rfl
    rw [hstep, ih]

lemma parseDigits_natDecStr (n : Nat) : parseDigits (natDecStr n).data = n := by
  by_cases h0 : n = 0
  · subst h0; rfl
  · unfold natDecStr
    rw [if_neg h0]
    show parseDigits ((toDigitsRev n).reverse.map digitChar) = n
    rw [toDigitsRev_eq,
      parseDigits_rev_map _ (fun d hd => Nat.digits_lt_base (by norm_num) hd)]
    exact Nat.ofDigits_digits 10 n

lemma pad3_data_nonneg (n : Int) (h : ¬ n < 0) :
    (pad3 n).data
      = List.replicate (3 - (natDecStr n.natAbs).length) '0' ++ (natDecStr n.natAbs).data := by
  unfold pad3
  rw [if_neg h]
  by_cases hw : 3 ≤ (natDecStr n.natAbs).length
  · rw [if_pos hw]
    have hz : 3 - (natDecStr n.natAbs).length = 0 := by omega
    rw [hz]
    rfl
  · rw [if_neg hw]
    rfl

lemma pad3_data_neg (n : Int) (h : n < 0) :
    (pad3 n).data
      = '-' :: (List.replicate (3 - (1 + (natDecStr n.natAbs).length)) '0'
          ++ (natDecStr n.natAbs).data) := by
  unfold pad3
  rw [if_pos h]
  by_cases hw : 3 ≤ 1 + (natDecStr n.natAbs).length
  · rw [if_pos hw]
    have hz : 3 - (1 + (natDecStr n.natAbs).length) = 0 := by omega
    rw [hz]
    rfl
  · rw [if_neg hw]
    rfl

lemma parseDigits_pad3 (n : Int) (h : ¬ n < 0) : parseDigits (pad3 n).data = n.natAbs := by
  rw [pad3_data_nonneg n h, parseDigits_replicate_zero, parseDigits_natDecStr]

lemma natDecStr_head (m : Nat) : ∃ c, (natDecStr m).data.head? = some c ∧ c ≠ '-' := by
  by_cases h0 : m = 0
  · subst h0; exact ⟨'0', rfl, by decide⟩
  · have hne : toDigitsRev m ≠ [] := by
      rw [toDigitsRev_eq]
      exact Nat.digits_ne_nil_iff_ne_zero.mpr h0
    have hrev : (toDigitsRev m).reverse ≠ [] := fun hh => hne (List.reverse_eq_nil_iff.mp hh)
    obtain ⟨d, t, ht⟩ := List.exists_cons_of_ne_nil hrev
    refine ⟨digitChar d, ?_, ?_⟩
    · unfold natDecStr
      rw [if_neg h0]
      show ((toDigitsRev m).reverse.map digitChar).head? = some (digitChar d)
      rw [ht]
      rfl
    · have hd : d < 10 := by
        have hmem : d ∈ toDigitsRev m := by
          rw [← List.mem_reverse, ht]
          exact List.mem_cons_self d t
        rw [toDigitsRev_eq] at hmem
        exact Nat.digits_lt_base (by norm_num) hmem
      have hnd : ∀ e, e < 10 → digitChar e ≠ '-' := by decide
      exact hnd d hd

lemma pad3_head_nonneg (n : Int) (h : ¬ n < 0) : (pad3 n).data.head? ≠ some '-' := by
  rw [pad3_data_nonneg n h]
  rcases Nat.eq_zero_or_pos (3 - (natDecStr n.natAbs).length) with hk | hk
  · rw [hk, List.replicate_zero, List.nil_append]
    obtain ⟨c, hc, hcn⟩ := natDecStr_head n.natAbs
    rw [hc]
    simp [hcn]
  · obtain ⟨k, hk2⟩ := Nat.exists_eq_succ_of_ne_zero (Nat.pos_iff_ne_zero.mp hk)
    rw [hk2, List.replicate_succ, List.cons_append]
    simp

lemma pad3_injective (a b : Int) (h : pad3 a = pad3 b) : a = b := by
  have hd : (pad3 a).data = (pad3 b).data := by rw [h]
  by_cases ha : a < 0 <;> by_cases hb : b < 0
  · rw [pad3_data_neg a ha, pad3_data_neg b hb] at hd
    have htail := congrArg List.tail hd
    simp only [List.tail_cons] at htail
    have habs : a.natAbs = b.natAbs := by
      have h1 : parseDigits (List.replicate (3 - (1 + (natDecStr a.natAbs).length)) '0'
          ++ (natDecStr a.natAbs).data) = a.natAbs := by
        rw [parseDigits_replicate_zero, parseDigits_natDecStr]
      have h2 : parseDigits (List.replicate (3 - (1 + (natDecStr b.natAbs).length)) '0'
          ++ (natDecStr b.natAbs).data) = b.natAbs := by
        rw [parseDigits_replicate_zero, parseDigits_natDecStr]
      rw [← h1, ← h2, htail]
    omega
  · have h1 : (pad3 a).data.head? = some '-' := by rw [pad3_data_neg a ha]; rfl
    rw [hd] at h1
    exact absurd h1 (pad3_head_nonneg b hb)
  · have h1 : (pad3 b).data.head? = some '-' := by rw [pad3_data_neg b hb]; rfl
    rw [← hd] at h1
    exact absurd h1 (pad3_head_nonneg a ha)
  · have habs : a.natAbs = b.natAbs := by
      rw [← parseDigits_pad3 a ha, ← parseDigits_pad3 b hb, hd]
    omega

/-- C6 counterexample: in a multi-unit batch with no workstation identifier,
every unit reuses the same explicit instance index, so units 0 and 1 resolve
to the same file name — the names are not collision-free. -/
theorem c6_collision_counterexample :
    unitFilename ⟨none, some 9, none, none, 2, 0, none⟩
        (unitIdx ⟨none, some 9, none, none, 2, 0, none⟩ 0)
      = unitFilename ⟨none, some 9, none, none, 2, 0, none⟩
        (unitIdx ⟨none, some 9, none, none, 2, 0, none⟩ 1)
    ∧ unitFilename ⟨none, some 9, none, none, 2, 0, none⟩
        (unitIdx ⟨none, some 9, none, none, 2, 0, none⟩ 0)
      = some "sphere-agent-config-009.json" := by decide

/-- C6 (amended): a single-unit run uses the non-empty explicit override
name, or the fixed default `sphere-agent-config.json` when the override is
absent or empty; a multi-unit run suffixes the fixed stem with the per-unit
zero-padded 3-digit index, and those names are pairwise distinct whenever a
non-empty workstation identifier drives sequential indices (in the
no-workstation multi-unit mode all units share one index and one name). -/
theorem c6_file_naming (args : Args) (i j : Nat) (n : Int) (s : String) :
    (args.count = 1 → args.output_file = some s → s ≠ "" →
        ∀ idx : Option Int, unitFilename args idx = some s)
    ∧ (args.count = 1 → (args.output_file = none ∨ args.output_file = some "") →
        ∀ idx : Option Int, unitFilename args idx = some "sphere-agent-config.json")
    ∧ (args.count ≠ 1 →
        unitFilename args (some n) = some ("sphere-agent-config-" ++ pad3 n ++ ".json"))
    ∧ (args.count ≠ 1 → truthyOpt args.workstation_id = true → i ≠ j →
        unitFilename args (unitIdx args i) ≠ unitFilename args (unitIdx args j)) := by
  refine ⟨?_, ?_, ?_, ?_⟩
  · intro hc ho hs idx
    simp [unitFilename, hc, ho, hs]
  · rintro hc (ho | ho) idx <;> simp [unitFilename, hc, ho]
  · intro hc
    simp [unitFilename, hc]
  · intro hc hw hij heq
    rw [unitIdx, if_pos hw, unitIdx, if_pos hw] at heq
    simp only [unitFilename, if_neg hc] at heq
    have hstr : "sphere-agent-config-" ++ pad3 (args.start_index + (i : Int)) ++ ".json"
        = "sphere-agent-config-" ++ pad3 (args.start_index + (j : Int)) ++ ".json" :=
      Option.some_injective _ heq
    have hdata := congrArg String.data hstr
    simp only [String.data_append] at hdata
    have hpad : (pad3 (args.start_index + (i : Int))).data
        = (pad3 (args.start_index + (j : Int))).data :=
      List.append_cancel_left (List.append_cancel_right hdata)
    have := pad3_injective _ _ (String.ext hpad)
    have hi : (i : Int) = (j : Int) := by omega
    exact hij (by exact_mod_cast hi)

/-- Closed instance of `c6_file_naming`: override name, default name,
suffixed names, and distinctness of the first two workstation-mode names. -/
theorem c6_file_naming_witness :
    unitFilename ⟨none, some 0, none, none, 1, 0, some "custom.json"⟩ (some 0)
      = some "custom.json"
    ∧ unitFilename ⟨none, some 0, none, none, 1, 0, none⟩ (some 0)
      = some "sphere-agent-config.json"
    ∧ unitFilename ⟨some "ws", none, none, none, 3, 0, none⟩ (some 2)
      = some ("sphere-agent-config-" ++ pad3 2 ++ ".json")
    ∧ unitFilename ⟨some "ws", none, none, none, 3, 0, none⟩
        (unitIdx ⟨some "ws", none, none, none, 3, 0, none⟩ 0)
      ≠ unitFilename ⟨some "ws", none, none, none, 3, 0, none⟩
        (unitIdx ⟨some "ws", none, none, none, 3, 0, none⟩ 1) := by
  refine ⟨?_, ?_, ?_, ?_⟩
  · exact (c6_file_naming ⟨none, some 0, none, none, 1, 0, some "custom.json"⟩ 0 0 0
      "custom.json").1 rfl rfl (by decide) (some 0)
  · exact (c6_file_naming ⟨none, some 0, none, none, 1, 0, none⟩ 0 0 0 "").2.1 rfl
      (Or.inl rfl) (some 0)
  · exact (c6_file_naming ⟨some "ws", none, none, none, 3, 0, none⟩ 0 0 2 "").2.2.1
      (by decide)
  · exact (c6_file_naming ⟨some "ws", none, none, none, 3, 0, none⟩ 0 1 0 "").2.2.2
      (by decide) (by decide) (by decide)

/-! ### The validator cannot distinguish units of one batch -/

lemma get_generate_single_config (env : EnvConfig) (ws : Option String) (idx : Option Int)
    (loc nm : Option String) (f : String) :
    (generate_single_config env ws idx loc nm).get f
      = if f = "config_version" then some (JVal.int env.config_version)
        else if f = "server_url" then some (JVal.str env.server_url)
        else if f = "ws_path" then some (JVal.str (env.ws_path.getD "/ws/android"))
        else if f = "enrollment_api_key" then some (JVal.str env.enrollment_api_key)
        else if f = "device_id" then some JVal.null
        else if f = "workstation_id" then
          some (match ws with | none => JVal.null | some s => JVal.str s)
        else if f = "instance_index" then
          some (match idx with | none => JVal.null | some n => JVal.int n)
        else if f = "location" then
          some (match orStr loc env.location with | none => JVal.null | some s => JVal.str s)
        else if f = "environment" then some (JVal.str (env.environment.getD "production"))
        else if f = "config_poll_interval_seconds" then
          some (JVal.int (env.config_poll_interval_seconds.getD 86400))
        else if f = "features" then some (JVal.boolMap (env.features.getD defaultFeatures))
        else if f = "meta" then
          some (JVal.strMap (generate_single_config env ws idx loc nm).meta)
        else none := rfl

lemma fieldMissingOrNull_invariant (env : EnvConfig) (ws loc : Option String)
    (idx idx2 : Option Int) (nm nm2 : Option String)
    (h : idx.isSome = idx2.isSome) (f : String) :
    fieldMissingOrNull (generate_single_config env ws idx loc nm) f
      = fieldMissingOrNull (generate_single_config env ws idx2 loc nm2) f := by
  unfold fieldMissingOrNull
  rw [get_generate_single_config, get_generate_single_config]
  by_cases h1 : f = "config_version"
  · rw [if_pos h1, if_pos h1]
  rw [if_neg h1, if_neg h1]
  by_cases h2 : f = "server_url"
  · rw [if_pos h2, if_pos h2]
  rw [if_neg h2, if_neg h2]
  by_cases h3 : f = "ws_path"
  · rw [if_pos h3, if_pos h3]
  rw [if_neg h3, if_neg h3]
  by_cases h4 : f = "enrollment_api_key"
  · rw [if_pos h4, if_pos h4]
  rw [if_neg h4, if_neg h4]
  by_cases h5 : f = "device_id"
  · rw [if_pos h5, if_pos h5]
  rw [if_neg h5, if_neg h5]
  by_cases h6 : f = "workstation_id"
  · rw [if_pos h6, if_pos h6]
  rw [if_neg h6, if_neg h6]
  by_cases h7 : f = "instance_index"
  · rw [if_pos h7, if_pos h7]
    cases idx <;> cases idx2 <;> simp_all [isNullVal]
  rw [if_neg h7, if_neg h7]
  by_cases h8 : f = "location"
  · rw [if_pos h8, if_pos h8]
  rw [if_neg h8, if_neg h8]
  by_cases h9 : f = "environment"
  · rw [if_pos h9, if_pos h9]
  rw [if_neg h9, if_neg h9]
  by_cases h10 : f = "config_poll_interval_seconds"
  · rw [if_pos h10, if_pos h10]
  rw [if_neg h10, if_neg h10]
  by_cases h11 : f = "features"
  · rw [if_pos h11, if_pos h11]
  rw [if_neg h11, if_neg h11]
  by_cases h12 : f = "meta"
  · rw [if_pos h12, if_pos h12]
    rfl
  rw [if_neg h12, if_neg h12]

lemma validate_config_invariant (env : EnvConfig) (ws loc : Option String)
    (idx idx2 : Option Int) (nm nm2 : Option String)
    (h : idx.isSome = idx2.isSome) (schema : Schema) :
    validate_config (generate_single_config env ws idx loc nm) schema
      = validate_config (generate_single_config env ws idx2 loc nm2) schema := by
  rw [validate_config_eq, validate_config_eq]
  have hfil : schema.required.filter
        (fun f => fieldMissingOrNull (generate_single_config env ws idx loc nm) f)
      = schema.required.filter
        (fun f => fieldMissingOrNull (generate_single_config env ws idx2 loc nm2) f) := by
    apply List.filter_congr
    intro f _
    exact fieldMissingOrNull_invariant env ws loc idx idx2 nm nm2 h f
  rw [hfil]
  rfl

lemma unitIdx_isSome (args : Args) (i j : Nat) :
    (unitIdx args i).isSome = (unitIdx args j).isSome := by
  unfold unitIdx
  by_cases h : truthyOpt args.workstation_id <;> simp [h]

lemma unitName_not_multi (args : Args) (x : Option Int) (hc : ¬ args.count > 1) :
    unitName args x = NameResult.ok args.ldplayer_name := by
  unfold unitName
  rw [if_neg hc]

lemma unitName_truthy (args : Args) (x : Option Int) (hc : args.count > 1)
    (hn : truthyOpt args.ldplayer_name = true) :
    unitName args x = NameResult.ok args.ldplayer_name := by
  unfold unitName
  rw [if_pos hc, if_pos hn]

lemma unitName_farm (args : Args) (n : Int) (hc : args.count > 1)
    (hn : truthyOpt args.ldplayer_name = false) :
    unitName args (some n) = NameResult.ok (some ("Farm-" ++ pad3 n)) := by
  unfold unitName
  rw [if_pos hc, hn]
  rfl

lemma unitName_crash (args : Args) (hc : args.count > 1)
    (hn : truthyOpt args.ldplayer_name = false) :
    unitName args none = NameResult.typeErr := by
  unfold unitName
  rw [if_pos hc, hn]
  rfl

lemma unitErrors_invariant (env : EnvConfig) (schema : Schema) (args : Args) (i j : Nat) :
    unitErrors env schema args i = unitErrors env schema args j := by
  unfold unitErrors
  by_cases hc : args.count > 1
  · by_cases hn : truthyOpt args.ldplayer_name = true
    · rw [unitName_truthy args _ hc hn, unitName_truthy args _ hc hn]
      show some (validate_config (generate_single_config env args.workstation_id
            (unitIdx args i) args.location args.ldplayer_name) schema)
          = some (validate_config (generate_single_config env args.workstation_id
            (unitIdx args j) args.location args.ldplayer_name) schema)
      exact congrArg some (validate_config_invariant env args.workstation_id args.location
        (unitIdx args i) (unitIdx args j) args.ldplayer_name args.ldplayer_name
        (unitIdx_isSome args i j) schema)
    · have hn2 : truthyOpt args.ldplayer_name = false := by
        cases hb : truthyOpt args.ldplayer_name
        · rfl
        · exact absurd hb hn
      cases hi : unitIdx args i with
      | none =>
        have hj : unitIdx args j = none := by
          have hs := unitIdx_isSome args i j
          rw [hi] at hs
          cases hjj : unitIdx args j
          · rfl
          · rw [hjj] at hs; simp at hs
        rw [hj, unitName_crash args hc hn2]
      | some a =>
        obtain ⟨b, hj⟩ : ∃ b, unitIdx args j = some b := by
          have hs := unitIdx_isSome args i j
          rw [hi] at hs
          cases hjj : unitIdx args j
          · rw [hjj] at hs; simp at hs
          · exact ⟨_, rfl⟩
        rw [hj, unitName_farm args a hc hn2, unitName_farm args b hc hn2]
        show some (validate_config (generate_single_config env args.workstation_id
              (some a) args.location (some ("Farm-" ++ pad3 a))) schema)
            = some (validate_config (generate_single_config env args.workstation_id
              (some b) args.location (some ("Farm-" ++ pad3 b))) schema)
        exact congrArg some (validate_config_invariant env args.workstation_id args.location
          (some a) (some b) (some ("Farm-" ++ pad3 a)) (some ("Farm-" ++ pad3 b)) rfl schema)
  · rw [unitName_not_multi args _ hc, unitName_not_multi args _ hc]
    show some (validate_config (generate_single_config env args.workstation_id
          (unitIdx args i) args.location args.ldplayer_name) schema)
        = some (validate_config (generate_single_config env args.workstation_id
          (unitIdx args j) args.location args.ldplayer_name) schema)
    exact congrArg some (validate_config_invariant env args.workstation_id args.location
      (unitIdx args i) (unitIdx args j) args.ldplayer_name args.ldplayer_name
      (unitIdx_isSome args i j) schema)

lemma runUnit_invalid_iff (env : EnvConfig) (schema : Schema) (args : Args) (i : Nat)
    (errs : List String) :
    runUnit env schema args i = StepResult.invalid errs
      ↔ (unitErrors env schema args i = some errs ∧ errs ≠ []) := by
  unfold runUnit unitErrors
  cases hn : unitName args (unitIdx args i) with
  | typeErr => simp
  | ok name =>
    dsimp only
    by_cases he : validate_config
        (generate_single_config env args.workstation_id (unitIdx args i) args.location name)
        schema = []
    · rw [if_pos he]
      constructor
      · intro h
        cases hf : unitFilename args (unitIdx args i) with
        | none => rw [hf] at h; exact absurd h (by simp)
        | some fn => rw [hf] at h; exact absurd h (by simp)
      · rintro ⟨h1, h2⟩
        rw [he] at h1
        injection h1 with hx
        exact absurd hx.symm h2
    · rw [if_neg he]
      constructor
      · intro h
        injection h with hx
        exact ⟨by rw [hx], by rw [← hx]; exact he⟩
      · rintro ⟨h1, -⟩
        injection h1 with hx
        rw [hx]

lemma runUnit_not_invalid_of_ok (env : EnvConfig) (schema : Schema) (args : Args)
    (i k : Nat) (f : String × DeviceConfig)
    (h : runUnit env schema args i = StepResult.ok f) (errs : List String) :
    runUnit env schema args k ≠ StepResult.invalid errs := by
  intro hk
  rw [runUnit_invalid_iff] at hk
  obtain ⟨hke, hne⟩ := hk
  have hi0 : unitErrors env schema args i = some [] := by
    unfold runUnit at h
    unfold unitErrors
    cases hn : unitName args (unitIdx args i) with
    | typeErr => rw [hn] at h; exact absurd h (by simp)
    | ok name =>
      rw [hn] at h
      dsimp only at h ⊢
      by_cases he : validate_config
          (generate_single_config env args.workstation_id (unitIdx args i) args.location name)
          schema = []
      · rw [he]
      · rw [if_neg he] at h
        exact absurd h (by simp)
  rw [unitErrors_invariant env schema args k i, hi0] at hke
  injection hke with hx
  exact hne hx.symm

/-- C10: the error list of the validator is the same for every unit of a batch
run (the per-unit index and display name never change a required-field or
credential check), so any validation failure is reported at unit 0, before a
single file of the batch has been written. -/
theorem c10_uniform_validation (env : EnvConfig) (schema : Schema) (args : Args) (i j : Nat) :
    unitErrors env schema args i = unitErrors env schema args j
    ∧ (∀ (w : List (String × DeviceConfig)) (u : Nat) (errs : List String),
        runBatch env schema args = Outcome.validationFailure w u errs → u = 0 ∧ w = []) := by
  refine ⟨unitErrors_invariant env schema args i j, ?_⟩
  intro w u errs hrun
  unfold runBatch at hrun
  cases hc : args.count with
  | zero =>
    rw [hc] at hrun
    exact absurd hrun (by simp [runBatchAux])
  | succ r =>
    rw [hc] at hrun
    simp only [runBatchAux] at hrun
    cases h0 : runUnit env schema args 0 with
    | typeErr =>
      rw [h0] at hrun
      exact absurd hrun (by simp)
    | invalid e =>
      rw [h0] at hrun
      injection hrun with hw hu he2
      exact ⟨hu.symm, hw.symm⟩
    | ok f =>
      rw [h0] at hrun
      have hnoinv : ∀ (k : Nat) (e2 : List String),
          runUnit env schema args k ≠ StepResult.invalid e2 :=
        fun k e2 => runUnit_not_invalid_of_ok env schema args 0 k f h0 e2
      have haux : ∀ (r2 i2 : Nat) (acc : List (String × DeviceConfig)),
          runBatchAux env schema args i2 r2 acc ≠ Outcome.validationFailure w u errs := by
        intro r2
        induction r2 with
        | zero =>
          intro i2 acc hx
          exact absurd hx (by simp [runBatchAux])
        | succ r3 ih =>
          intro i2 acc hx
          simp only [runBatchAux] at hx
          cases hk : runUnit env schema args i2 with
          | typeErr => rw [hk] at hx; exact absurd hx (by simp)
          | invalid e2 => exact hnoinv i2 e2 hk
          | ok f2 => rw [hk] at hx; exact ih (i2 + 1) (acc ++ [f2]) hx
      exact absurd hrun (haux r 1 ([] ++ [f]))

/-- Closed instance of `c10_uniform_validation`: a batch of 2 with a bad
credential has equal unit error lists and fails at unit 0 with no file
written. -/
theorem c10_uniform_validation_witness :
    unitErrors ⟨1, "https://x", none, "bad_key", none, none, none, none⟩ ⟨[]⟩
        ⟨some "ws", none, none, none, 2, 0, none⟩ 0
      = unitErrors ⟨1, "https://x", none, "bad_key", none, none, none, none⟩ ⟨[]⟩
        ⟨some "ws", none, none, none, 2, 0, none⟩ 1
    ∧ ((0 : Nat) = 0 ∧ ([] : List (String × DeviceConfig)) = []) :=
  ⟨(c10_uniform_validation ⟨1, "https://x", none, "bad_key", none, none, none, none⟩ ⟨[]⟩
      ⟨some "ws", none, none, none, 2, 0, none⟩ 0 1).1,
   (c10_uniform_validation ⟨1, "https://x", none, "bad_key", none, none, none, none⟩ ⟨[]⟩
      ⟨some "ws", none, none, none, 2, 0, none⟩ 0 1).2 [] 0 [apiKeyError "bad_key"] (by decide)⟩

lemma runBatchAux_reaches (env : EnvConfig) (schema : Schema) (args : Args)
    (errs : List String) :
    ∀ (m i r : Nat) (acc : List (String × DeviceConfig)),
      m < r →
      (∀ k, k < m → ∃ f, runUnit env schema args (i + k) = StepResult.ok f) →
      runUnit env schema args (i + m) = StepResult.invalid errs →
      runBatchAux env schema args i r acc
        = Outcome.validationFailure
            (acc ++ (List.range m).filterMap (fun k => okFile env schema args (i + k)))
            (i + m) errs := by
  intro m
  induction m with
  | zero =>
    intro i r acc hm hprev hinv
    obtain ⟨r2, rfl⟩ : ∃ r2, r = r2 + 1 := ⟨r - 1, by omega⟩
    simp only [runBatchAux]
    rw [show i + 0 = i from rfl] at hinv
    rw [hinv]
    dsimp only
    rw [List.range_zero, List.filterMap_nil, List.append_nil, Nat.add_zero]
  | succ m2 ih =>
    intro i r acc hm hprev hinv
    obtain ⟨r2, rfl⟩ : ∃ r2, r = r2 + 1 := ⟨r - 1, by omega⟩
    obtain ⟨f, hf⟩ := hprev 0 (Nat.succ_pos m2)
    rw [show i + 0 = i from rfl] at hf
    simp only [runBatchAux]
    rw [hf]
    dsimp only
    have hprev2 : ∀ k, k < m2 → ∃ f2, runUnit env schema args ((i + 1) + k) = StepResult.ok f2 := by
      intro k hk
      have hx := hprev (k + 1) (by omega)
      rw [show i + (k + 1) = (i + 1) + k by omega] at hx
      exact hx
    have hinv2 : runUnit env schema args ((i + 1) + m2) = StepResult.invalid errs := by
      rw [show (i + 1) + m2 = i + (m2 + 1) by omega]
      exact hinv
    rw [ih (i + 1) r2 (acc ++ [f]) (by omega) hprev2 hinv2]
    rw [show (i + 1) + m2 = i + (m2 + 1) by omega]
    rw [List.append_assoc]
    have hok : okFile env schema args i = some f := by
      unfold okFile
      rw [hf]
    have hlist : [f] ++ (List.range m2).filterMap (fun k => okFile env schema args ((i + 1) + k))
        = (List.range (m2 + 1)).filterMap (fun k => okFile env schema args (i + k)) := by
      rw [List.range_succ_eq_map, List.filterMap_cons]
      rw [show i + 0 = i from rfl, hok]
      rw [List.filterMap_map]
      have hcong : (List.range m2).filterMap
            ((fun k => okFile env schema args (i + k)) ∘ Nat.succ)
          = (List.range m2).filterMap (fun k => okFile env schema args ((i + 1) + k)) := by
        apply List.filterMap_congr
        intro a _
        show okFile env schema args (i + (a + 1)) = okFile env schema args ((i + 1) + a)
        rw [show i + (a + 1) = (i + 1) + a by omega]
      rw [hcong]
      rfl
    rw [hlist]

/-- C5: when unit `j` is the first unit of a batch to fail validation, the
run ends as a validation failure at unit `j` with exit status 1, reporting
the errors of that unit; exactly the files of the earlier units 0..j-1 have been
written (they stay in place — no rollback) and neither unit `j` nor any
later unit is written. -/
theorem c5_batch_abort (env : EnvConfig) (schema : Schema) (args : Args) (j : Nat)
    (errs : List String) (hj : j < args.count)
    (hinv : runUnit env schema args j = StepResult.invalid errs)
    (hprev : ∀ k, k < j → ∃ f, runUnit env schema args k = StepResult.ok f) :
    runBatch env schema args
      = Outcome.validationFailure
          ((List.range j).filterMap (fun k => okFile env schema args k)) j errs
    ∧ exitCode (runBatch env schema args) = 1 := by
  have hprev0 : ∀ k, k < j → ∃ f, runUnit env schema args (0 + k) = StepResult.ok f := by
    intro k hk
    rw [Nat.zero_add]
    exact hprev k hk
  have hinv0 : runUnit env schema args (0 + j) = StepResult.invalid errs := by
    rw [Nat.zero_add]
    exact hinv
  have h := runBatchAux_reaches env schema args errs j 0 args.count [] hj hprev0 hinv0
  rw [Nat.zero_add] at h
  have hfil : (List.range j).filterMap (fun k => okFile env schema args (0 + k))
      = (List.range j).filterMap (fun k => okFile env schema args k) := by
    apply List.filterMap_congr
    intro a _
    rw [Nat.zero_add]
  rw [hfil, List.nil_append] at h
  unfold runBatch
  rw [h]
  exact ⟨rfl, rfl⟩

/-- Closed instance of `c5_batch_abort`: a one-unit batch whose credential
fails validation exits with status 1, reporting the error of the unit, with no
file written. -/
theorem c5_batch_abort_witness :
    runBatch ⟨1, "https://x", none, "bad_key", none, none, none, none⟩ ⟨[]⟩
        ⟨none, some 0, none, none, 1, 0, none⟩
      = Outcome.validationFailure
          ((List.range 0).filterMap
            (fun k => okFile ⟨1, "https://x", none, "bad_key", none, none, none, none⟩ ⟨[]⟩
              ⟨none, some 0, none, none, 1, 0, none⟩ k)) 0 [apiKeyError "bad_key"]
    ∧ exitCode (runBatch ⟨1, "https://x", none, "bad_key", none, none, none, none⟩ ⟨[]⟩
        ⟨none, some 0, none, none, 1, 0, none⟩) = 1 :=
  c5_batch_abort ⟨1, "https://x", none, "bad_key", none, none, none, none⟩ ⟨[]⟩
    ⟨none, some 0, none, none, 1, 0, none⟩ 0 [apiKeyError "bad_key"] (by decide) (by decide)
    (fun k hk => absurd hk (by omega))

/-- C9 counterexample: count=2, no workstation identifier and no explicit
instance index, but an explicit display name is given and validation fails —
the run reports a validation error at unit 0 and exits cleanly with status 1
instead of crashing with a type error. -/
theorem c9_crash_counterexample :
    runBatch ⟨1, "https://x", none, "sphr_ok", none, none, none, none⟩ ⟨["instance_index"]⟩
        ⟨none, none, none, some "X", 2, 0, none⟩
      = Outcome.validationFailure [] 0 [requiredFieldError "instance_index"]
    ∧ exitCode (runBatch ⟨1, "https://x", none, "sphr_ok", none, none, none, none⟩
        ⟨["instance_index"]⟩ ⟨none, none, none, some "X", 2, 0, none⟩) = 1 := by decide

/-- C9 (amended): with count > 1, no workstation identifier, no explicit
instance index and no non-empty explicit display name, the batch driver
crashes at the first unit while formatting the null index as a zero-padded
display name: an uncaught type error with a non-zero exit status and no file
written, before any validation error could be reported. -/
theorem c9_null_index_crash (env : EnvConfig) (schema : Schema) (args : Args)
    (hc : args.count > 1) (hw : args.workstation_id = none)
    (hi : args.instance_index = none) (hn : truthyOpt args.ldplayer_name = false) :
    runBatch env schema args = Outcome.typeError []
    ∧ exitCode (runBatch env schema args) ≠ 0 := by
  have hidx : unitIdx args 0 = none := by
    unfold unitIdx
    rw [hw, hi]
    rfl
  have hname : unitName args (unitIdx args 0) = NameResult.typeErr := by
    rw [hidx]
    exact unitName_crash args hc hn
  have hrun : runUnit env schema args 0 = StepResult.typeErr := by
    unfold runUnit
    rw [hname]
  have hmain : runBatch env schema args = Outcome.typeError [] := by
    unfold runBatch
    obtain ⟨r, hr⟩ : ∃ r, args.count = r + 1 := ⟨args.count - 1, by omega⟩
    rw [hr]
    simp only [runBatchAux]
    rw [hrun]
  refine ⟨hmain, ?_⟩
  rw [hmain]
  decide

/-- Closed instances of `c9_null_index_crash`: the crash occurs both with no
display name at all and with a supplied-but-empty (falsy) display name. -/
theorem c9_null_index_crash_witness :
    (runBatch ⟨1, "https://x", none, "sphr_ok", none, none, none, none⟩ ⟨[]⟩
        ⟨none, none, none, none, 2, 0, none⟩
      = Outcome.typeError []
    ∧ exitCode (runBatch ⟨1, "https://x", none, "sphr_ok", none, none, none, none⟩ ⟨[]⟩
        ⟨none, none, none, none, 2, 0, none⟩) ≠ 0)
    ∧ (runBatch ⟨1, "https://x", none, "sphr_ok", none, none, none, none⟩ ⟨[]⟩
        ⟨none, none, none, some "", 2, 0, none⟩
      = Outcome.typeError []
    ∧ exitCode (runBatch ⟨1, "https://x", none, "sphr_ok", none, none, none, none⟩ ⟨[]⟩
        ⟨none, none, none, some "", 2, 0, none⟩) ≠ 0) :=
  ⟨c9_null_index_crash ⟨1, "https://x", none, "sphr_ok", none, none, none, none⟩ ⟨[]⟩
      ⟨none, none, none, none, 2, 0, none⟩ (by decide) rfl rfl (by decide),
   c9_null_index_crash ⟨1, "https://x", none, "sphr_ok", none, none, none, none⟩ ⟨[]⟩
      ⟨none, none, none, some "", 2, 0, none⟩ (by decide) rfl rfl (by decide)⟩
